import Mathlib

/-!
Shallow embedding of the GroceryNana backend (src/backend/src/main.rs).

The program is a small actix-web HTTP server: a configuration loader for
DATABASE_URL, a SQLite connection pool created at startup, a migration
runner, a CORS + access-log middleware stack, and two handlers
(hello_world on GET / and health_check on GET /api/health), both of which
serialize small response structs to JSON.

Machine-level effects (the actual TCP socket, the actual SQLite file) are
represented by explicit inputs: the outcome of the liveness query is an
`Except` value passed to the handler, the pool/migration/bind outcomes are
`Except` values passed to the startup function.
-/

namespace GroceryNana

/-- serde_json string escaping restricted to the characters that can occur
in this program's payload strings: quote and backslash are escaped, common
control characters get their short forms, every other character is kept. -/
def escapeChar (c : Char) : String :=
  if c = '"' then "\\\""
  else if c = '\\' then "\\\\"
  else if c = '\n' then "\\n"
  else if c = '\r' then "\\r"
  else if c = '\t' then "\\t"
  else String.singleton c

/-- Escape every character of a string for inclusion in a JSON literal. -/
def jsonEscape (s : String) : String :=
  String.join (s.toList.map escapeChar)

/-- A JSON string literal: escaped content between double quotes. -/
def jsonString (s : String) : String :=
  "\"" ++ jsonEscape s ++ "\""

/-- `struct HealthResponse` from main.rs: status and message strings. -/
structure HealthResponse where
  status : String
  message : String
deriving DecidableEq, Repr

/-- serde serialization of HealthResponse; serde_json emits the fields in
declaration order: status first, then message. -/
def HealthResponse.toJson (r : HealthResponse) : String :=
  "\x7b\"status\":" ++ jsonString r.status ++ ",\"message\":" ++ jsonString r.message ++ "\x7d"

/-- `struct HelloResponse` from main.rs: a single message string. -/
structure HelloResponse where
  message : String
deriving DecidableEq, Repr

/-- serde serialization of HelloResponse. -/
def HelloResponse.toJson (r : HelloResponse) : String :=
  "\x7b\"message\":" ++ jsonString r.message ++ "\x7d"

/-- An HTTP response as produced by the handlers: status code, content
type, body. -/
structure HttpResponse where
  status : Nat
  contentType : String
  body : String
deriving DecidableEq, Repr

/-- `HttpResponse::Ok().json(x)`: status 200, JSON content type. -/
def okJson (body : String) : HttpResponse :=
  HttpResponse.mk 200 "application/json" body

/-- `HttpResponse::InternalServerError().json(x)`: status 500, JSON content
type. -/
def internalServerErrorJson (body : String) : HttpResponse :=
  HttpResponse.mk 500 "application/json" body

/-- A row returned by the SQLite driver (the health check discards it, so
only its existence matters; we carry the column values for concreteness). -/
structure SqliteRow where
  values : List Int
deriving DecidableEq, Repr

/-- An error value from the sqlx driver, carrying its rendered detail. -/
structure SqlxError where
  message : String
deriving DecidableEq, Repr

/-- An actix_web::Error, the error side of the handlers' `Result`. -/
structure ActixError where
  message : String
deriving DecidableEq, Repr

/-- `health_check` from main.rs. The outcome of
`sqlx::query("SELECT 1").fetch_one(db).await` is the explicit input.
Both match arms wrap the response in `Ok`, so the handler never returns
the error side. -/
def health_check (queryResult : Except SqlxError SqliteRow) : Except ActixError HttpResponse :=
  match queryResult with
  | Except.ok _ =>
      Except.ok (okJson (HealthResponse.toJson (HealthResponse.mk "ok" "Database connected")))
  | Except.error _ =>
      Except.ok (internalServerErrorJson
        (HealthResponse.toJson (HealthResponse.mk "error" "Database connection failed")))

/-- `hello_world` from main.rs: unconditionally Ok with the static
greeting payload. It takes no inputs, exactly as in the source. -/
def hello_world : Except ActixError HttpResponse :=
  Except.ok (okJson (HelloResponse.toJson
    (HelloResponse.mk "Hello World from GroceryNana Backend!")))

/-- The configuration loader of main.rs:
`env::var("DATABASE_URL").unwrap_or_else(|_| "sqlite:./database.db".to_string())`.
The process environment is the explicit input. -/
def getDatabaseUrl (envDatabaseUrl : Option String) : String :=
  match envDatabaseUrl with
  | some v => v
  | none => "sqlite:./database.db"

/-- The actix-cors builder state: which origins/methods/headers are
allowed and the preflight max-age. -/
structure Cors where
  allowAnyOrigin : Bool
  allowAnyMethod : Bool
  allowAnyHeader : Bool
  maxAgeSecs : Option Nat
deriving DecidableEq, Repr

/-- `Cors::default()`: the restrictive, security-first defaults of
actix-cors — nothing allowed, no max-age. -/
def Cors.restrictiveDefault : Cors :=
  Cors.mk false false false none

def Cors.allow_any_origin (c : Cors) : Cors :=
  { c with allowAnyOrigin := true }

def Cors.allow_any_method (c : Cors) : Cors :=
  { c with allowAnyMethod := true }

def Cors.allow_any_header (c : Cors) : Cors :=
  { c with allowAnyHeader := true }

def Cors.max_age (c : Cors) (secs : Nat) : Cors :=
  { c with maxAgeSecs := some secs }

/-- The CORS policy built in main.rs:
`Cors::default().allow_any_origin().allow_any_method().allow_any_header().max_age(3600)`. -/
def corsConfig : Cors :=
  ((((Cors.restrictiveDefault).allow_any_origin).allow_any_method).allow_any_header).max_age 3600

/-- The expected body of a successful health check, as the spec writes it. -/
def healthOkBody : String :=
  "\x7b\"status\":\"ok\",\"message\":\"Database connected\"\x7d"

/-- The expected body of a failed health check, as the spec writes it. -/
def healthErrBody : String :=
  "\x7b\"status\":\"error\",\"message\":\"Database connection failed\"\x7d"

/-- The expected body of the hello handler, as the spec writes it. -/
def helloBody : String :=
  "\x7b\"message\":\"Hello World from GroceryNana Backend!\"\x7d"

/-- The handler identities registered in main. -/
inductive Handler where
  | hello
  | health
deriving DecidableEq, Repr

/-- The route table of main.rs, in registration order:
`.route("/", web::get().to(hello_world))` then
`.route("/api/health", web::get().to(health_check))`. -/
def routes : List (String × String × Handler) :=
  [("GET", "/", Handler.hello), ("GET", "/api/health", Handler.health)]

/-- actix route matching over the registered routes: the first route whose
method guard and path both match the request wins. -/
def dispatch (method path : String) : Option Handler :=
  (routes.find? (fun r => r.1 == method && r.2.1 == path)).map (fun r => r.2.2)

/-- Run the matched handler. -/
def runHandler (h : Handler) (queryResult : Except SqlxError SqliteRow) :
    Except ActixError HttpResponse :=
  match h with
  | Handler.hello => hello_world
  | Handler.health => health_check queryResult

/-- actix-web's default behavior for a request no route handles: when the
path matches a registered resource but its method guard rejects the
request, the resource's default service answers 405 Method Not Allowed;
when no path matches, the app's default service answers 404 Not Found.
Both carry an empty body. -/
def frameworkDefault (_method path : String) : HttpResponse :=
  if routes.any (fun r => r.2.1 == path) then HttpResponse.mk 405 "" ""
  else HttpResponse.mk 404 "" ""

/-- Full request handling of the app built in main: dispatch to the
matched handler, or fall back to the framework default; an Ok handler
result becomes the response (both handlers always return Ok). -/
def handleRequest (method path : String) (queryResult : Except SqlxError SqliteRow) :
    HttpResponse :=
  match dispatch method path with
  | none => frameworkDefault method path
  | some h =>
      match runHandler h queryResult with
      | Except.ok resp => resp
      | Except.error e => HttpResponse.mk 500 "" e.message

/-- Observable steps of the middleware pipeline, for ordering claims. -/
inductive TraceEvent where
  | loggerEnter
  | loggerExit
  | corsEnter
  | corsExit
  | dispatched (h : Option Handler)
deriving DecidableEq, Repr

/-- A service maps a request (method, path, liveness-query outcome) to the
trace of pipeline steps it executes and the final response. -/
def Service : Type :=
  String → String → Except SqlxError SqliteRow → List TraceEvent × HttpResponse

/-- The innermost service: route dispatch plus handler execution. -/
def routeService : Service :=
  fun method path q =>
    ([TraceEvent.dispatched (dispatch method path)], handleRequest method path q)

/-- Wrapping a service in a middleware: the middleware step runs on the
way in before the inner service and again on the way out after it. -/
def wrapMiddleware (enterEv exitEv : TraceEvent) (inner : Service) : Service :=
  fun method path q =>
    let r := inner method path q
    (enterEv :: r.1 ++ [exitEv], r.2)

/-- The app built in main: `.wrap(cors).wrap(Logger::default())`. Under
actix-web semantics middleware registered later is outermost and is
entered first on each request, so the access-log middleware wraps the
CORS-wrapped router. -/
def appService : Service :=
  wrapMiddleware TraceEvent.loggerEnter TraceEvent.loggerExit
    (wrapMiddleware TraceEvent.corsEnter TraceEvent.corsExit routeService)

/-- The connection pool handle produced by `SqlitePool::connect`. -/
structure Pool where
  id : Nat
deriving DecidableEq, Repr

/-- How the process left its startup sequence: panicked on an `expect`
(Rust aborts the process with exit code 101 and the diagnostic), failed to
bind the listener (`?` returns the error from main, exit code 1), or bound
0.0.0.0:8080 and is serving. -/
inductive StartupOutcome where
  | panicked (diagnostic : String)
  | bindFailed (message : String)
  | serving (pool : Pool) (addr : String)
deriving DecidableEq, Repr

/-- The startup sequence of main.rs: read DATABASE_URL with its default,
connect the pool (`.expect("Failed to create database pool")`), run the
migrations (`.expect("Failed to run migrations")`), then bind 0.0.0.0:8080.
The pool, migration and bind outcomes are explicit inputs; `expect`
appends the rendered error to its message. -/
def mainStartup (envDatabaseUrl : Option String)
    (connect : String → Except SqlxError Pool)
    (migrate : Pool → Except SqlxError Unit)
    (bindResult : Except String Unit) : StartupOutcome :=
  let database_url := getDatabaseUrl envDatabaseUrl
  match connect database_url with
  | Except.error e => StartupOutcome.panicked ("Failed to create database pool: " ++ e.message)
  | Except.ok pool =>
      match migrate pool with
      | Except.error e => StartupOutcome.panicked ("Failed to run migrations: " ++ e.message)
      | Except.ok _ =>
          match bindResult with
          | Except.error e => StartupOutcome.bindFailed e
          | Except.ok _ => StartupOutcome.serving pool "0.0.0.0:8080"

/-- The process exit code determined by the startup outcome; none while
the server is running (it serves until externally terminated). -/
def exitCode : StartupOutcome → Option Nat
  | StartupOutcome.panicked _ => some 101
  | StartupOutcome.bindFailed _ => some 1
  | StartupOutcome.serving _ _ => none

/-- Whether the TCP listener was bound. -/
def listenerBound : StartupOutcome → Bool
  | StartupOutcome.serving _ _ => true
  | _ => false

/-- A request can only be answered by a process whose listener is bound;
otherwise no HTTP response is ever produced. -/
def serveRequest (o : StartupOutcome) (method path : String)
    (q : Except SqlxError SqliteRow) : Option HttpResponse :=
  match o with
  | StartupOutcome.serving _ _ => some (handleRequest method path q)
  | _ => none

/-- A schema migration as the sqlx runner tracks it: a version number and
a checksum of its contents. -/
structure Migration where
  version : Nat
  checksum : Nat
deriving DecidableEq, Repr

/-- Modelled from the spec: the migration runner invoked by main
(`sqlx::migrate!("./migrations").run(&pool)`) is sqlx library code not
present in this repository. Per the spec (section 4.3) it applies, in
order, every migration not yet recorded as applied, skips migrations
already recorded, and fails if a recorded migration no longer matches the
resolved one. Returns the recorded-applied list after the run together
with the list of migrations applied during this run. -/
def runMigrations : List Migration → List Migration →
    Except String (List Migration × List Migration)
  | [], applied => Except.ok (applied, [])
  | m :: rest, applied =>
      if m ∈ applied then runMigrations rest applied
      else if applied.any (fun a => a.version == m.version) then
        Except.error "migration checksum mismatch"
      else
        match runMigrations rest (applied ++ [m]) with
        | Except.ok r => Except.ok (r.1, m :: r.2)
        | Except.error e => Except.error e

/-- C1: for every request to GET /api/health, if the liveness query
(SELECT 1) succeeds — whatever row it returns — the handler returns HTTP
status 200 with body exactly the ok/Database connected JSON object. -/
theorem health_check_ok_exact (row : SqliteRow) :
    health_check (Except.ok row) =
      Except.ok (HttpResponse.mk 200 "application/json" healthOkBody) := by
  rfl

/-- C2: for every request to GET /api/health, if the liveness query fails
for any reason, the handler still returns normally (the Ok side of its
Result, no crash and no propagated error) with HTTP status 500 and body
exactly the error/Database connection failed JSON object; the response is
the same constant for every error value, so the underlying error detail
never appears in the body. -/
theorem health_check_err_exact (e : SqlxError) :
    health_check (Except.error e) =
      Except.ok (HttpResponse.mk 500 "application/json" healthErrBody) := by
  rfl

/-- C3: for every request to GET /, independently of the database state
and any history (the handler takes no inputs at all), the response is HTTP
200 with body exactly the hello JSON object. -/
theorem hello_world_exact :
    hello_world = Except.ok (HttpResponse.mk 200 "application/json" helloBody) := by
  rfl

/-- C5: the configuration loader yields "sqlite:./database.db" when
DATABASE_URL is unset, and yields the set value unchanged — any string at
all, so no well-formedness validation happens here. -/
theorem getDatabaseUrl_spec :
    getDatabaseUrl none = "sqlite:./database.db" ∧
    ∀ v : String, getDatabaseUrl (some v) = v := by
  exact ⟨rfl, fun v => rfl⟩

/-- C7: the CORS policy built in main permits any origin, any method and
any header, and sets the preflight max-age to exactly 3600 seconds. -/
theorem corsConfig_spec :
    corsConfig.allowAnyOrigin = true ∧
    corsConfig.allowAnyMethod = true ∧
    corsConfig.allowAnyHeader = true ∧
    corsConfig.maxAgeSecs = some 3600 := by
  exact ⟨rfl, rfl, rfl, rfl⟩

/-- C10: the health handler's response is a function only of the success
or failure of the liveness query: any two successful executions produce
identical responses whatever rows they saw, and any two failing executions
produce identical responses whatever the error values were. -/
theorem health_check_noninterference (r₁ r₂ : SqliteRow) (e₁ e₂ : SqlxError) :
    health_check (Except.ok r₁) = health_check (Except.ok r₂) ∧
    health_check (Except.error e₁) = health_check (Except.error e₂) := by
  exact ⟨rfl, rfl⟩

/-- Whatever list a run of the migration runner starts from, every
migration recorded before the run is still recorded after it. -/
lemma runMigrations_preserves (ms : List Migration) :
    ∀ applied fin ran, runMigrations ms applied = Except.ok (fin, ran) →
      ∀ m ∈ applied, m ∈ fin := by
  induction ms with
  | nil =>
      intro applied fin ran h m hm
      simp only [runMigrations] at h
      cases h
      exact hm
  | cons x rest ih =>
      intro applied fin ran h m hm
      simp only [runMigrations] at h
      by_cases hx : x ∈ applied
      · rw [if_pos hx] at h
        exact ih applied fin ran h m hm
      · rw [if_neg hx] at h
        by_cases hv : applied.any (fun a => a.version == x.version) = true
        · simp [hv] at h
        · simp only [hv, if_false, Bool.false_eq_true] at h
          cases hrec : runMigrations rest (applied ++ [x]) with
          | error e => rw [hrec] at h; cases h
          | ok r =>
              rw [hrec] at h
              cases h
              exact ih (applied ++ [x]) r.1 r.2 (by rw [hrec]) m (List.mem_append_left _ hm)

/-- After a successful run of the migration runner, every migration of the
input list is recorded as applied. -/
lemma runMigrations_records (ms : List Migration) :
    ∀ applied fin ran, runMigrations ms applied = Except.ok (fin, ran) →
      ∀ m ∈ ms, m ∈ fin := by
  induction ms with
  | nil =>
      intro applied fin ran _ m hm
      cases hm
  | cons x rest ih =>
      intro applied fin ran h m hm
      simp only [runMigrations] at h
      by_cases hx : x ∈ applied
      · rw [if_pos hx] at h
        rcases List.mem_cons.mp hm with hmx | hmr
        · exact hmx ▸ runMigrations_preserves rest applied fin ran h x hx
        · exact ih applied fin ran h m hmr
      · rw [if_neg hx] at h
        by_cases hv : applied.any (fun a => a.version == x.version) = true
        · simp [hv] at h
        · simp only [hv, if_false, Bool.false_eq_true] at h
          cases hrec : runMigrations rest (applied ++ [x]) with
          | error e => rw [hrec] at h; cases h
          | ok r =>
              rw [hrec] at h
              cases h
              rcases List.mem_cons.mp hm with hmx | hmr
              · exact runMigrations_preserves rest (applied ++ [x]) r.1 r.2 (by rw [hrec]) m
                  (by rw [hmx]; exact List.mem_append_right _ (List.mem_singleton_self x))
              · exact ih (applied ++ [x]) r.1 r.2 (by rw [hrec]) m hmr

/-- A run of the migration runner over migrations that are all already
recorded succeeds, records nothing new and applies nothing. -/
lemma runMigrations_noop (ms : List Migration) :
    ∀ applied, (∀ m ∈ ms, m ∈ applied) →
      runMigrations ms applied = Except.ok (applied, []) := by
  induction ms with
  | nil =>
      intro applied _
      rfl
  | cons x rest ih =>
      intro applied hall
      have hx : x ∈ applied := hall x (List.mem_cons_self x rest)
      simp only [runMigrations]
      rw [if_pos hx]
      exact ih applied (fun m hm => hall m (List.mem_cons_of_mem x hm))

/-- C8: running the startup migration step a second time against a
database on which all migrations have already been applied is idempotent:
the second run raises no error, applies no migration, and leaves the
recorded schema state exactly as the first run left it. -/
theorem runMigrations_idempotent (ms applied fin ran : List Migration)
    (h : runMigrations ms applied = Except.ok (fin, ran)) :
    runMigrations ms fin = Except.ok (fin, []) := by
  exact runMigrations_noop ms fin (fun m hm => runMigrations_records ms applied fin ran h m hm)

/-- C8 witness: a concrete two-migration run from an empty database,
followed by the rerun the idempotence theorem predicts. -/
theorem runMigrations_idempotent_witness :
    runMigrations [Migration.mk 1 11, Migration.mk 2 22] [] =
      Except.ok ([Migration.mk 1 11, Migration.mk 2 22],
        [Migration.mk 1 11, Migration.mk 2 22]) ∧
    runMigrations [Migration.mk 1 11, Migration.mk 2 22]
        [Migration.mk 1 11, Migration.mk 2 22] =
      Except.ok ([Migration.mk 1 11, Migration.mk 2 22], []) := by
  exact ⟨rfl,
    runMigrations_idempotent [Migration.mk 1 11, Migration.mk 2 22] []
      [Migration.mk 1 11, Migration.mk 2 22]
      [Migration.mk 1 11, Migration.mk 2 22] rfl⟩

/-- C9: exactly two routes are registered — GET / to the hello handler and
GET /api/health to the health handler — and a request matching neither
gets the framework default: a 4xx status with an empty body, never one of
the handler bodies. -/
theorem routing_unmatched (method path : String) (q : Except SqlxError SqliteRow)
    (h : dispatch method path = none) :
    routes.length = 2 ∧
    dispatch "GET" "/" = some Handler.hello ∧
    dispatch "GET" "/api/health" = some Handler.health ∧
    handleRequest method path q = frameworkDefault method path ∧
    400 ≤ (handleRequest method path q).status ∧
    (handleRequest method path q).status < 500 ∧
    (handleRequest method path q).body = "" ∧
    (handleRequest method path q).body ≠ healthOkBody ∧
    (handleRequest method path q).body ≠ healthErrBody ∧
    (handleRequest method path q).body ≠ helloBody := by
  have hreq : handleRequest method path q = frameworkDefault method path := by
    simp [handleRequest, h]
  have hfd : frameworkDefault method path = HttpResponse.mk 405 "" "" ∨
      frameworkDefault method path = HttpResponse.mk 404 "" "" := by
    unfold frameworkDefault
    split
    · exact Or.inl rfl
    · exact Or.inr rfl
  rcases hfd with hfd | hfd <;>
    rw [hfd] at hreq <;>
    refine ⟨rfl, by decide, by decide, by rw [hreq, hfd], ?_, ?_, ?_, ?_, ?_, ?_⟩ <;>
    rw [hreq] <;> decide

/-- C9 witness: POST / matches no registered route (the only route on /
has a GET method guard) and receives the framework default response. -/
theorem routing_unmatched_witness :
    dispatch "POST" "/" = none ∧
    handleRequest "POST" "/" (Except.error (SqlxError.mk "no db")) =
      frameworkDefault "POST" "/" := by
  exact ⟨by decide,
    (routing_unmatched "POST" "/" (Except.error (SqlxError.mk "no db"))
      (by decide)).2.2.2.1⟩

/-- C6 counterexample: the claim says the cross-origin policy step runs
before the access-log step on every request, but on the concrete request
GET / the pipeline enters the access-log middleware first — in the
executed trace the cross-origin step does not precede the access-log
step. -/
theorem middleware_order_counterexample :
    ¬ (List.indexOf TraceEvent.corsEnter
        (appService "GET" "/" (Except.ok (SqliteRow.mk [1]))).1 <
      List.indexOf TraceEvent.loggerEnter
        (appService "GET" "/" (Except.ok (SqliteRow.mk [1]))).1) := by
  decide

/-- C6 (amended): for every incoming request the pipeline executes in the
order: the access-log step is entered first, then the cross-origin policy
step, then dispatch to the matched handler; on the way out the
cross-origin step completes before the access-log step, where the log
record is written. -/
theorem middleware_order (method path : String) (q : Except SqlxError SqliteRow) :
    (appService method path q).1 =
      [TraceEvent.loggerEnter, TraceEvent.corsEnter,
       TraceEvent.dispatched (dispatch method path),
       TraceEvent.corsExit, TraceEvent.loggerExit] := by
  rfl

/-- C4: if pool creation or migration application fails at startup, the
process exits with a non-zero code (the panic exit code 101) carrying a
diagnostic message, the listener on 0.0.0.0:8080 is never bound, and no
HTTP response is ever produced for any request. -/
theorem startup_fatal (envDatabaseUrl : Option String)
    (connect : String → Except SqlxError Pool)
    (migrate : Pool → Except SqlxError Unit)
    (bindResult : Except String Unit)
    (h : (∃ e, connect (getDatabaseUrl envDatabaseUrl) = Except.error e) ∨
      (∃ p e, connect (getDatabaseUrl envDatabaseUrl) = Except.ok p ∧
        migrate p = Except.error e)) :
    (∃ msg, mainStartup envDatabaseUrl connect migrate bindResult =
      StartupOutcome.panicked msg) ∧
    exitCode (mainStartup envDatabaseUrl connect migrate bindResult) = some 101 ∧
    listenerBound (mainStartup envDatabaseUrl connect migrate bindResult) = false ∧
    ∀ method path q,
      serveRequest (mainStartup envDatabaseUrl connect migrate bindResult) method path q =
        none := by
  rcases h with ⟨e, he⟩ | ⟨p, e, hp, he⟩
  · have hm : mainStartup envDatabaseUrl connect migrate bindResult =
        StartupOutcome.panicked ("Failed to create database pool: " ++ e.message) := by
      simp [mainStartup, he]
    rw [hm]
    exact ⟨⟨_, rfl⟩, rfl, rfl, fun _ _ _ => rfl⟩
  · have hm : mainStartup envDatabaseUrl connect migrate bindResult =
        StartupOutcome.panicked ("Failed to run migrations: " ++ e.message) := by
      simp [mainStartup, hp, he]
    rw [hm]
    exact ⟨⟨_, rfl⟩, rfl, rfl, fun _ _ _ => rfl⟩

/-- C4 witness: a concrete environment whose pool creation fails; startup
panics with the pool diagnostic, the listener is not bound, and no request
is served. -/
theorem startup_fatal_witness :
    (∃ e, (fun _ : String => (Except.error (SqlxError.mk "unable to open database file") :
        Except SqlxError Pool)) (getDatabaseUrl none) = Except.error e) ∧
    ((∃ msg, mainStartup none
        (fun _ => Except.error (SqlxError.mk "unable to open database file"))
        (fun _ => Except.ok ()) (Except.ok ()) = StartupOutcome.panicked msg) ∧
      exitCode (mainStartup none
        (fun _ => Except.error (SqlxError.mk "unable to open database file"))
        (fun _ => Except.ok ()) (Except.ok ())) = some 101 ∧
      listenerBound (mainStartup none
        (fun _ => Except.error (SqlxError.mk "unable to open database file"))
        (fun _ => Except.ok ()) (Except.ok ())) = false ∧
      ∀ method path q,
        serveRequest (mainStartup none
          (fun _ => Except.error (SqlxError.mk "unable to open database file"))
          (fun _ => Except.ok ()) (Except.ok ())) method path q = none) := by
  exact ⟨⟨SqlxError.mk "unable to open database file", rfl⟩,
    startup_fatal none
      (fun _ => Except.error (SqlxError.mk "unable to open database file"))
      (fun _ => Except.ok ()) (Except.ok ())
      (Or.inl ⟨SqlxError.mk "unable to open database file", rfl⟩)⟩

end GroceryNana
